import Mathlib

/-!
Verification of the Scrybe audio-transcription front-end.

This file gives a shallow embedding, in Lean 4, of the behaviourally relevant
parts of the repository:

* `FileUploader.tsx` (file intake): `handleDrop`, `handleChange`, `handleRemove`;
* the `App` component (presentation shell): `handleAudioReady`, `handleClear`,
  tab switching, `handleTranscribe` and the completion of its awaited call,
  all folded into a `step` function over an explicit `AppState`;
* `geminiService` / `types.ts` (transcription client): `transcribeAudio`
  with its prompt template, modelled with an explicit effect trace so that
  claims about "no network access" and about the transmitted inline payload
  become statements about the trace;
* `AudioRecorder.tsx` (capture engine and visualizer): encoder preference
  selection, chunk accumulation, the `onstop` finalisation, and the
  `drawVisualizer` animation loop including the value of `isRecording`
  captured by its closure.

JavaScript-specific behaviour (truthiness of strings, `||` fallbacks,
`String.prototype.startsWith`) is embedded by small explicitly named helpers.
Machine-level concerns do not arise: all numbers involved are small integers
(byte values, counters) except the visualizer geometry, where the only claimed
quantity, `dataArray[i] / 2` with `dataArray[i] < 256`, is exact in binary
floating point and is therefore modelled exactly in `ℚ`.
-/

namespace Scrybe

/-- Embedding of JavaScript `String.prototype.startsWith`. -/
def strStartsWith (s p : String) : Bool :=
  p.data.isPrefixOf s.data

/-- `listContainsSub pat l` holds when `pat` occurs as a contiguous infix of `l`. -/
def listContainsSub (pat : List Char) : List Char → Bool
  | [] => pat.isEmpty
  | c :: rest => pat.isPrefixOf (c :: rest) || listContainsSub pat rest

/-- String containment (substring occurrence), via `listContainsSub`. -/
def strContains (s pat : String) : Bool :=
  listContainsSub pat.data s.data

/-- JavaScript `a || b` on strings: the empty string is the only falsy string. -/
def jsOrStr (a b : String) : String :=
  if a = "" then b else a

/-- `isMMSS s` holds when `s` is exactly of the form `MM:SS`
(two digits, a colon, two digits). -/
def isMMSS (s : String) : Bool :=
  match s.data with
  | [m1, m2, c, s1, s2] => m1.isDigit && m2.isDigit && c == ':' && s1.isDigit && s2.isDigit
  | _ => false

/-! ## File Intake (`FileUploader.tsx`) -/

/-- A browser `File`: display name, declared media type, byte payload. -/
structure File where
  name : String
  type : String
  data : List Nat
  deriving DecidableEq

/-- Outward-visible actions of the `FileUploader` component: the
`onFileSelected` callback, the `onClear` callback, and `alert` dialogs. -/
inductive UploadEmit where
  | fileSelected (f : File)
  | cleared
  | alertMsg (message : String)
  deriving DecidableEq

/-- Local state of the `FileUploader` component (`dragActive`, `selectedFile`). -/
structure UploaderState where
  dragActive : Bool
  selectedFile : Option File
  deriving DecidableEq

/-- `handleDrop` (FileUploader.tsx, lines 23-37): takes the dropped file list
(`e.dataTransfer.files`); when a first file exists, accepts it only if its
declared type starts with `audio/`, otherwise shows an alert and emits nothing. -/
def handleDrop (files : List File) (s : UploaderState) : UploaderState × List UploadEmit :=
  let s0 : UploaderState := { s with dragActive := false }
  match files.head? with
  | none => (s0, [])
  | some file =>
    if strStartsWith file.type "audio/" then
      ({ s0 with selectedFile := some file }, [UploadEmit.fileSelected file])
    else
      (s0, [UploadEmit.alertMsg "Please upload a valid audio file."])

/-- `handleChange` (FileUploader.tsx, lines 39-46): takes the picker's file
list (`e.target.files`); when a first file exists it is selected and emitted
unconditionally — no media-type validation occurs on this path. -/
def handleChange (files : List File) (s : UploaderState) : UploaderState × List UploadEmit :=
  match files.head? with
  | none => (s, [])
  | some file =>
    ({ s with selectedFile := some file }, [UploadEmit.fileSelected file])

/-- `handleRemove` (FileUploader.tsx, lines 48-51). -/
def handleRemove (s : UploaderState) : UploaderState × List UploadEmit :=
  ({ s with selectedFile := none }, [UploadEmit.cleared])

/-! ## Presentation shell (`App`) -/

/-- A `Blob`: byte payload plus declared media type. -/
structure Blob where
  data : List Nat
  type : String
  deriving DecidableEq

/-- `AudioSourceType` from `types.ts`. -/
inductive AudioSourceType where
  | MICROPHONE
  | UPLOAD
  deriving DecidableEq

/-- `AudioState` from `types.ts`. Object URLs are modelled as natural-number
identifiers handed out by a fresh counter (see `AppState.nextUrl`). -/
structure AudioState where
  blob : Option (List Nat)
  url : Option Nat
  type : Option String
  name : Option String
  deriving DecidableEq

/-- `TranscriptionState` from `types.ts`. -/
structure TranscriptionState where
  isLoading : Bool
  error : Option String
  result : Option String
  deriving DecidableEq

/-- The `App` component's state.  The last three fields are instrumentation of
the browser environment rather than React state: `nextUrl` models
`URL.createObjectURL` (each call returns a fresh identifier), `revokedUrls`
records every `URL.revokeObjectURL` call, and `requestsStarted` counts the
invocations of `transcribeAudio`. -/
structure AppState where
  activeTab : AudioSourceType
  timestampInterval : Nat
  isDarkMode : Bool
  audioState : AudioState
  transcription : TranscriptionState
  nextUrl : Nat
  revokedUrls : List Nat
  requestsStarted : Nat
  deriving DecidableEq

/-- `handleAudioReady` (App, lines 145-157): stores the new blob with a fresh
object URL and resets `transcription` to the idle state.  No URL is revoked. -/
def handleAudioReady (blob : Blob) (s : AppState) : AppState :=
  { s with
    audioState :=
      { blob := some blob.data
        url := some s.nextUrl
        type := some blob.type
        name := none }
    transcription := { isLoading := false, error := none, result := none }
    nextUrl := s.nextUrl + 1 }

/-- `handleClear` (App, lines 159-165): revokes the current object URL if one
is present, then empties both the audio state and the transcription state. -/
def handleClear (s : AppState) : AppState :=
  let revoked :=
    match s.audioState.url with
    | some u => u :: s.revokedUrls
    | none => s.revokedUrls
  { s with
    audioState := { blob := none, url := none, type := none, name := none }
    transcription := { isLoading := false, error := none, result := none }
    revokedUrls := revoked }

/-- Tab-button click handler (App, lines 230-233 and 245-248): sets the active
tab and then calls `handleClear`. -/
def switchTab (tab : AudioSourceType) (s : AppState) : AppState :=
  handleClear { s with activeTab := tab }

/-- The synchronous part of `handleTranscribe` (App, lines 167-171), up to the
`await`: the guard `if (!audioState.blob || !audioState.type) return;` is a
no-op when the blob is null or the type is null or the empty string (both
falsy); otherwise the loading state is entered and `transcribeAudio` is
invoked (counted by `requestsStarted`). Note that `transcription.isLoading`
is not consulted. -/
def handleTranscribe (s : AppState) : AppState :=
  if s.audioState.blob = none ∨ s.audioState.type = none ∨ s.audioState.type = some "" then s
  else
    { s with
      transcription := { isLoading := true, error := none, result := none }
      requestsStarted := s.requestsStarted + 1 }

/-- Continuation of `handleTranscribe` when the awaited call returns text
(App, lines 173-178). -/
def onTranscribeOk (text : String) (s : AppState) : AppState :=
  { s with transcription := { isLoading := false, error := none, result := some text } }

/-- Continuation of `handleTranscribe` when the awaited call throws
(App, lines 179-185): `error.message || "An unexpected error occurred during
transcription."`. -/
def onTranscribeErr (message : String) (s : AppState) : AppState :=
  { s with
    transcription :=
      { isLoading := false
        error := some (jsOrStr message "An unexpected error occurred during transcription.")
        result := none } }

/-- The events driving the presentation shell. -/
inductive AppEvent where
  | setAudio (blob : Blob)
  | clear
  | switchMode (tab : AudioSourceType)
  | startTranscribe
  | completeOk (text : String)
  | completeErr (message : String)
  deriving DecidableEq

/-- One state transition of the presentation shell. -/
def step (e : AppEvent) (s : AppState) : AppState :=
  match e with
  | AppEvent.setAudio b => handleAudioReady b s
  | AppEvent.clear => handleClear s
  | AppEvent.switchMode tab => switchTab tab s
  | AppEvent.startTranscribe => handleTranscribe s
  | AppEvent.completeOk text => onTranscribeOk text s
  | AppEvent.completeErr m => onTranscribeErr m s

/-- At most one of `error` and `result` is populated. -/
def atMostOne (t : TranscriptionState) : Prop :=
  t.error = none ∨ t.result = none

/-! ## Transcription client (`geminiService`) -/

/-- The base64 alphabet. -/
def base64Chars : List Char :=
  "ABCDEFGHIJKLMNOPQRSTUVWXYZabcdefghijklmnopqrstuvwxyz0123456789+/".data

/-- Character for a 6-bit group. -/
def b64c (n : Nat) : Char :=
  base64Chars.getD (n % 64) 'A'

/-- Modelled from the spec: `blobToBase64` lives in `utils/audioUtils`, which
is not among the provided sources; the spec (§4.4, §6) says the payload is
"base64-encoded bytes". Standard RFC 4648 base64 over the byte list. -/
def base64Encode : List Nat → String
  | [] => ""
  | [b1] =>
    String.mk [b64c (b1 / 4), b64c (b1 % 4 * 16), '=', '=']
  | [b1, b2] =>
    String.mk [b64c (b1 / 4), b64c (b1 % 4 * 16 + b2 / 16), b64c (b2 % 16 * 4), '=']
  | b1 :: b2 :: b3 :: rest =>
    String.mk [b64c (b1 / 4), b64c (b1 % 4 * 16 + b2 / 16),
      b64c (b2 % 16 * 4 + b3 / 64), b64c (b3 % 64)] ++ base64Encode rest

/-- The instruction text built by `transcribeAudio` (geminiService, the
template literal at lines 54-68), reproduced byte for byte, with the two
`${intervalMinutes}` interpolations. -/
def buildPrompt (intervalMinutes : Nat) : String :=
  "Please transcribe the following audio. \n            \n            IMPORTANT: You must structure the transcript by inserting timestamps approximately every "
    ++ toString intervalMinutes
    ++ " minutes (or at logical breaks near that interval).\n            \n            Format the timestamps strictly as a header on a new line: \"## [MM:SS]\".\n            Start with \"## [00:00]\".\n            \n            Example output format:\n            ## [00:00]\n            (Text for the first segment...)\n            \n            ## [0"
    ++ toString intervalMinutes
    ++ ":00]\n            (Text for the next segment...)\n            \n            If there are distinct speakers, label them as Speaker 1, Speaker 2, etc. Format the text with clear paragraph breaks."

/-- The service response: `response.text` may be absent. -/
structure GenResponse where
  text : Option String
  deriving DecidableEq

/-- Observable effects of `transcribeAudio`, in order: the base64 encoding of
the payload, and the single `generateContent` network call with its model
identifier, inline-data media type, encoded payload, and instruction text. -/
inductive NetEffect where
  | encodeBase64 (payload : List Nat)
  | generateContent (model : String) (mimeType : String) (dataB64 : String) (message : String)
  deriving DecidableEq

/-- `transcribeAudio` (geminiService, lines 30-83).  The environment's answer
to the one network call is passed in as `response` (`Except.error` modelling a
thrown transport error).  Returns the result together with the effect trace.
The `try`/`catch` merely logs and rethrows, so it is semantically the
identity on errors. -/
def transcribeAudio (apiKey : String) (audioBlob : Blob) (mimeType : String)
    (intervalMinutes : Nat) (response : Except String GenResponse) :
    Except String String × List NetEffect :=
  if apiKey = "" then
    (Except.error "API Key is missing. Please ensure process.env.API_KEY is set.", [])
  else
    let base64Data := base64Encode audioBlob.data
    let finalMimeType := jsOrStr mimeType "audio/mp3"
    let effects := [NetEffect.encodeBase64 audioBlob.data,
      NetEffect.generateContent "gemini-2.5-flash" finalMimeType base64Data
        (buildPrompt intervalMinutes)]
    match response with
    | Except.error e => (Except.error e, effects)
    | Except.ok r =>
      match r.text with
      | none => (Except.error "No transcription generated.", effects)
      | some t =>
        if t = "" then (Except.error "No transcription generated.", effects)
        else (Except.ok t, effects)

/-- The media types carried by the `generateContent` calls of a trace. -/
def sentMimeTypes (effects : List NetEffect) : List String :=
  effects.filterMap fun e =>
    match e with
    | NetEffect.generateContent _ m _ _ => some m
    | _ => none

/-! ## Capture engine (`AudioRecorder.tsx`) -/

/-- The ordered encoder preference list (AudioRecorder.tsx, lines 48-54). -/
def mimeTypes : List String :=
  ["audio/webm;codecs=opus", "audio/webm", "audio/mp4", "audio/aac", "audio/ogg"]

/-- The selection loop (AudioRecorder.tsx, lines 56-62): starting from
`selectedMimeType = ''`, take the first supported type and `break`. -/
def selectLoop (isTypeSupported : String → Bool) : List String → String
  | [] => ""
  | t :: rest => if isTypeSupported t then t else selectLoop isTypeSupported rest

/-- The value of `selectedMimeType` after the loop. -/
def selectedMimeType (isTypeSupported : String → Bool) : String :=
  selectLoop isTypeSupported mimeTypes

/-- `const options = selectedMimeType ? { mimeType: selectedMimeType } : undefined`
(AudioRecorder.tsx, line 64): `none` means the recorder is constructed with
the platform default encoding. -/
def recorderOptions (isTypeSupported : String → Bool) : Option String :=
  if selectedMimeType isTypeSupported = "" then none
  else some (selectedMimeType isTypeSupported)

/-- `ondataavailable` (AudioRecorder.tsx, lines 69-73): push the chunk only
when `e.data.size > 0`. -/
def ondataavailable (data : List Nat) (chunks : List (List Nat)) : List (List Nat) :=
  if 0 < data.length then chunks ++ [data] else chunks

/-- The chunk list accumulated over a recording session from the sequence of
`dataavailable` events (starting from `chunksRef.current = []`). -/
def recordSession (events : List (List Nat)) : List (List Nat) :=
  events.foldl (fun chunks d => ondataavailable d chunks) []

/-- The `onstop` handler's blob construction (AudioRecorder.tsx, lines 75-77):
`mediaRecorderRef.current?.mimeType || selectedMimeType || 'audio/webm'`, and
`new Blob(chunks, { type: finalMimeType })` concatenates the chunks. -/
def onstop (recorderMimeType selected : String) (chunks : List (List Nat)) : Blob :=
  let finalMimeType := jsOrStr recorderMimeType (jsOrStr selected "audio/webm")
  { data := chunks.flatten, type := finalMimeType }

/-! ## Visualizer (`drawVisualizer`, AudioRecorder.tsx lines 118-165) -/

/-- One painted bar: geometry and the two gradient stop colors. -/
structure Bar where
  x : ℚ
  y : ℚ
  w : ℚ
  h : ℚ
  colorTop : String
  colorBottom : String
  deriving DecidableEq

/-- Gradient stop colors by theme (lines 149-155): sky-400/blue-500 in dark
mode, indigo-500/indigo-600 in light mode. -/
def barGradient (isDark : Bool) : String × String :=
  if isDark then ("#38bdf8", "#3b82f6") else ("#6366f1", "#4f46e5")

/-- The painting body of one animation frame (lines 140-161): canvas is
600 × 128; `barWidth = (canvas.width / bufferLength) * 2.5`;
`barHeight = dataArray[i] / 2`; bars advance by `barWidth + 1`. -/
def drawFrame (isDark : Bool) (dataArray : List Nat) : List Bar :=
  let barWidth : ℚ := 600 / (dataArray.length : ℚ) * (5 / 2)
  let g := barGradient isDark
  (List.range dataArray.length).map fun i =>
    let barHeight : ℚ := (dataArray.getD i 0 : ℚ) / 2
    { x := (barWidth + 1) * (i : ℚ)
      y := 128 - barHeight
      w := barWidth
      h := barHeight
      colorTop := g.1
      colorBottom := g.2 }

/-- The `draw` callback loop (lines 127-162) fed with the stream of per-frame
analyser reads.  Its first statement is `if (!isRecording) return;`, where
`isRecording` is the value captured by the closure when `drawVisualizer` was
created — it never changes afterwards.  Only when the guard passes is the next
frame scheduled and the current one painted. -/
def runDraw (capturedIsRecording : Bool) (isDark : Bool) : List (List Nat) → List (List Bar)
  | [] => []
  | d :: rest =>
    if capturedIsRecording then
      drawFrame isDark d :: runDraw capturedIsRecording isDark rest
    else []

/-- `drawVisualizer` (lines 118-165): returns immediately when
`analyserRef.current` or `canvasRef.current` is null (`canvasPresent` models
both refs being populated), otherwise starts the `draw` loop with the captured
`isRecording` value. -/
def drawVisualizer (canvasPresent : Bool) (capturedIsRecording : Bool) (isDark : Bool)
    (frames : List (List Nat)) : List (List Bar) :=
  if canvasPresent then runDraw capturedIsRecording isDark frames else []

/-! ## Concrete states used by witnesses and counterexamples -/

/-- A non-audio file. -/
def txtFile : File :=
  { name := "notes.txt", type := "text/plain", data := [104, 105] }

/-- The uploader before any selection. -/
def idleUploader : UploaderState :=
  { dragActive := false, selectedFile := none }

/-- The shell's initial state (App, lines 118-132). -/
def freshState : AppState :=
  { activeTab := AudioSourceType.MICROPHONE
    timestampInterval := 2
    isDarkMode := true
    audioState := { blob := none, url := none, type := none, name := none }
    transcription := { isLoading := false, error := none, result := none }
    nextUrl := 0
    revokedUrls := []
    requestsStarted := 0 }

/-- A state with an audio object present and a request already in flight. -/
def inFlightState : AppState :=
  { activeTab := AudioSourceType.UPLOAD
    timestampInterval := 2
    isDarkMode := true
    audioState := { blob := some [1, 2, 3], url := some 0, type := some "audio/webm", name := none }
    transcription := { isLoading := true, error := none, result := none }
    nextUrl := 1
    revokedUrls := []
    requestsStarted := 1 }

/-! ## Auxiliary lemmas -/

/-- A nonempty string has positive length. -/
theorem length_pos_of_ne_empty (s : String) (h : s ≠ "") : 0 < s.length := by
  cases s with
  | mk data =>
    cases data with
    | nil => exact absurd rfl h
    | cons c cs => simp [String.length]

/-- The selection loop, under the `options` guard, computes `find?` on any
list not containing the empty string. -/
theorem selectLoop_find (isTypeSupported : String → Bool) (l : List String)
    (hl : ("" : String) ∉ l) :
    (if selectLoop isTypeSupported l = "" then none else some (selectLoop isTypeSupported l))
      = l.find? isTypeSupported := by
  induction l with
  | nil => simp [selectLoop]
  | cons t rest ih =>
    simp only [List.mem_cons, not_or] at hl
    by_cases h : isTypeSupported t
    · rw [List.find?_cons_of_pos _ h]
      have hne : t ≠ "" := Ne.symm hl.1
      simp [selectLoop, h, hne]
    · rw [List.find?_cons_of_neg _ h, ← ih hl.2]
      simp [selectLoop, h]

/-- Chunk accumulation keeps exactly the nonempty data events, in order. -/
theorem foldl_ondataavailable (events : List (List Nat)) (acc : List (List Nat)) :
    events.foldl (fun chunks d => ondataavailable d chunks) acc
      = acc ++ events.filter (fun d => decide (0 < d.length)) := by
  induction events generalizing acc with
  | nil => simp
  | cons d rest ih =>
    rw [List.foldl_cons, ih]
    by_cases h : 0 < d.length
    · simp [ondataavailable, h, List.filter_cons]
    · simp [ondataavailable, h, List.filter_cons]

/-- The accumulated session is the filtered event list. -/
theorem recordSession_eq_filter (events : List (List Nat)) :
    recordSession events = events.filter fun d => decide (0 < d.length) := by
  show events.foldl (fun chunks d => ondataavailable d chunks) []
      = events.filter fun d => decide (0 < d.length)
  simpa using foldl_ondataavailable events []

/-- Mapping a function over positions of a list via `getD` equals mapping it
over the list. -/
theorem map_range_getD {β : Type} (g : Nat → β) (l : List Nat) :
    (List.range l.length).map (fun i => g (l.getD i 0)) = l.map fun v => g v := by
  induction l with
  | nil => simp
  | cons a l ih =>
    rw [List.length_cons, List.range_succ_eq_map]
    simp only [List.map_cons, List.getD_cons_zero, List.map_map]
    refine congrArg (g a :: ·) ?_
    rw [← ih]
    apply List.map_congr_left
    intro i _
    simp [List.getD_cons_succ, Function.comp]

/-! ## Claims -/

/-- C1 (corrected). On the drop path, a file whose declared media type does not
begin with `audio/` is rejected: the user-facing alert is shown, no
`fileSelected` is emitted, and the selection is unchanged.  On the file-picker
path, however, `handleChange` emits the file with no type validation at all,
so the claim as stated fails there (see `c1_counterexample`). -/
theorem c1_dropValidatesPickerDoesNot (files : List File) (s : UploaderState) (f : File)
    (hf : files.head? = some f) (hty : strStartsWith f.type "audio/" = false) :
    (handleDrop files s).2 = [UploadEmit.alertMsg "Please upload a valid audio file."] ∧
    (handleDrop files s).1.selectedFile = s.selectedFile ∧
    (handleChange files s).2 = [UploadEmit.fileSelected f] := by
  refine ⟨?_, ?_, ?_⟩ <;> simp [handleDrop, handleChange, hf, hty]

/-- Witness for C1 at a concrete `text/plain` file. -/
theorem c1_dropValidatesPickerDoesNot_witness :
    (handleDrop [txtFile] idleUploader).2
        = [UploadEmit.alertMsg "Please upload a valid audio file."] ∧
    (handleDrop [txtFile] idleUploader).1.selectedFile = idleUploader.selectedFile ∧
    (handleChange [txtFile] idleUploader).2 = [UploadEmit.fileSelected txtFile] :=
  c1_dropValidatesPickerDoesNot [txtFile] idleUploader txtFile rfl (by decide)

/-- C1 counterexample: a file with declared type `text/plain` delivered via the
file-picker dialog (`handleChange`) is emitted upward — `onFileSelected` is
called and no warning is shown — refuting the claim that such a file is always
rejected on either path. -/
theorem c1_counterexample :
    txtFile.type = "text/plain" ∧
    strStartsWith txtFile.type "audio/" = false ∧
    (handleChange [txtFile] idleUploader).2 = [UploadEmit.fileSelected txtFile] :=
  ⟨rfl, by decide, rfl⟩

/-- C2 (corrected). Invoking `handleTranscribe` with no AudioObject present —
null blob, or null or empty declared type (both falsy in the source's guard) —
leaves the state unchanged and starts no request, regardless of
the UI button state.  But when an AudioObject is present, `handleTranscribe`
starts a request unconditionally — it never consults `isLoading`, so the
in-flight guard exists only in the button's `disabled` attribute (see
`c2_counterexample`). -/
theorem c2_noAudioGuard (s : AppState) :
    (s.audioState.blob = none ∨ s.audioState.type = none ∨ s.audioState.type = some "" →
      handleTranscribe s = s) ∧
    (∀ b t, s.audioState.blob = some b → s.audioState.type = some t → t ≠ "" →
      (handleTranscribe s).requestsStarted = s.requestsStarted + 1 ∧
      (handleTranscribe s).transcription
        = { isLoading := true, error := none, result := none }) := by
  constructor
  · intro h
    simp only [handleTranscribe, if_pos h]
  · intro b t hb ht hne
    have hcond : ¬(s.audioState.blob = none ∨ s.audioState.type = none
        ∨ s.audioState.type = some "") := by
      simp [hb, ht, hne]
    simp [handleTranscribe, hcond]

/-- Witness for C2: no-op on the fresh state; a second request starts from the
in-flight state. -/
theorem c2_noAudioGuard_witness :
    handleTranscribe freshState = freshState ∧
    (handleTranscribe inFlightState).requestsStarted = inFlightState.requestsStarted + 1 :=
  ⟨(c2_noAudioGuard freshState).1 (Or.inl rfl),
    ((c2_noAudioGuard inFlightState).2 [1, 2, 3] "audio/webm" rfl rfl (by decide)).1⟩

/-- C2 counterexample: with an AudioObject present and a request already in
flight (`isLoading = true`), invoking `handleTranscribe` starts another
request (`requestsStarted` increments), refuting the claim that it is a no-op
whenever a request is in flight. -/
theorem c2_counterexample :
    inFlightState.transcription.isLoading = true ∧
    (handleTranscribe inFlightState).requestsStarted = inFlightState.requestsStarted + 1 := by
  exact ⟨rfl, by decide⟩

/-- C3 (confirmed). Every shell transition preserves "at most one of
{error, result} is populated"; both are null right after a new AudioObject is
set, after clearing, after a mode switch, and after a request actually starts
(i.e. whenever `requestsStarted` grew). -/
theorem c3_transcriptionExclusivity (s : AppState) (e : AppEvent)
    (h : atMostOne s.transcription) :
    atMostOne (step e s).transcription ∧
    (∀ b, (step (AppEvent.setAudio b) s).transcription
        = { isLoading := false, error := none, result := none }) ∧
    (step AppEvent.clear s).transcription
        = { isLoading := false, error := none, result := none } ∧
    (∀ tab, (step (AppEvent.switchMode tab) s).transcription
        = { isLoading := false, error := none, result := none }) ∧
    (s.requestsStarted < (step AppEvent.startTranscribe s).requestsStarted →
      (step AppEvent.startTranscribe s).transcription
        = { isLoading := true, error := none, result := none }) := by
  refine ⟨?_, fun b => rfl, rfl, fun tab => rfl, ?_⟩
  · cases e with
    | setAudio b => simp [step, handleAudioReady, atMostOne]
    | clear => simp [step, handleClear, atMostOne]
    | switchMode tab => simp [step, switchTab, handleClear, atMostOne]
    | startTranscribe =>
      simp only [step, handleTranscribe]
      split
      · exact h
      · simp [atMostOne]
    | completeOk text => simp [step, onTranscribeOk, atMostOne]
    | completeErr m => simp [step, onTranscribeErr, atMostOne]
  · intro hlt
    simp only [step] at hlt ⊢
    by_cases hc : s.audioState.blob = none ∨ s.audioState.type = none
        ∨ s.audioState.type = some ""
    · simp only [handleTranscribe, if_pos hc] at hlt
      exact absurd hlt (lt_irrefl _)
    · simp only [handleTranscribe, if_neg hc]

/-- Witness for C3: the clear event from the fresh state. -/
theorem c3_transcriptionExclusivity_witness :
    atMostOne (step AppEvent.clear freshState).transcription ∧
    (step AppEvent.clear freshState).transcription
      = { isLoading := false, error := none, result := none } := by
  have h := c3_transcriptionExclusivity freshState AppEvent.clear (Or.inl rfl)
  exact ⟨h.1, h.2.2.1⟩

/-- C4 (confirmed). With no API credential configured (empty key),
`transcribeAudio` fails with the configuration error, and its effect trace is
empty: no base64 encoding of the payload and no network call happen, for every
payload, media type, interval, and would-be service response. -/
theorem c4_missingKeyFailsFast (audioBlob : Blob) (mimeType : String)
    (intervalMinutes : Nat) (response : Except String GenResponse) :
    transcribeAudio "" audioBlob mimeType intervalMinutes response
      = (Except.error "API Key is missing. Please ensure process.env.API_KEY is set.", []) :=
  rfl

/-- C5 (confirmed). The recorder options carry exactly the first entry of the
ordered preference list that the platform reports as supported; when no entry
is supported the options are absent (`none`), i.e. the recorder is constructed
with the platform default encoding. -/
theorem c5_encoderPreference (isTypeSupported : String → Bool) :
    recorderOptions isTypeSupported = mimeTypes.find? isTypeSupported := by
  show (if selectLoop isTypeSupported mimeTypes = "" then none
      else some (selectLoop isTypeSupported mimeTypes))
    = mimeTypes.find? isTypeSupported
  exact selectLoop_find isTypeSupported mimeTypes (by decide)

/-- C6 (confirmed). For every start-then-stop sequence, the blob produced at
stop time concatenates exactly the accumulated (nonempty) chunks, and its
media type is never empty: the recorder's reported type if nonempty, else the
selected preference-list type, else `audio/webm`. -/
theorem c6_stopProducesTaggedConcat (recorderMimeType selected : String)
    (events : List (List Nat)) :
    (onstop recorderMimeType selected (recordSession events)).data
        = (events.filter fun d => decide (0 < d.length)).flatten ∧
    0 < (onstop recorderMimeType selected (recordSession events)).type.length ∧
    (onstop recorderMimeType selected (recordSession events)).type
      = (if recorderMimeType = "" then (if selected = "" then "audio/webm" else selected)
          else recorderMimeType) := by
  refine ⟨?_, ?_, rfl⟩
  · show (recordSession events).flatten = _
    rw [recordSession_eq_filter]
  · show 0 < (jsOrStr recorderMimeType (jsOrStr selected "audio/webm")).length
    simp only [jsOrStr]
    by_cases h1 : recorderMimeType = ""
    · rw [if_pos h1]
      by_cases h2 : selected = ""
      · rw [if_pos h2]
        decide
      · rw [if_neg h2]
        exact length_pos_of_ne_empty selected h2
    · rw [if_neg h1]
      exact length_pos_of_ne_empty recorderMimeType h1

set_option maxRecDepth 100000 in
/-- C7 (code bug at `intervalMinutes = 10`). The constructed instruction does
contain the literal substrings `## [MM:SS]` and `## [00:00]`, but at the
maximal slider value 10 the interpolated example header is `## [010:00]` —
three-digit minutes, not of `MM:SS` form — contradicting the prompt's own
"strictly as ## [MM:SS]" instruction. -/
theorem c7_promptExampleHeaderAtTen :
    strContains (buildPrompt 10) "## [MM:SS]" = true ∧
    strContains (buildPrompt 10) "## [00:00]" = true ∧
    strContains (buildPrompt 10) "## [010:00]" = true ∧
    isMMSS "010:00" = false :=
  ⟨by decide, by decide, by decide, by decide⟩

/-- C8 (code bug). The one call of `drawVisualizer` happens inside
`startRecording`, which runs in the render where `isRecording` was still
`false`; the `draw` closure captures that value (React state updates do not
mutate the captured binding), so its `if (!isRecording) return;` guard fails
on the very first invocation: no animation frame is ever painted and none is
ever scheduled, whatever the analyser delivers.  The painting body itself — had
it run — does paint one bar per frequency bin at exactly half the bin's
magnitude, as the last two conjuncts state. -/
theorem c8_visualizerStaleClosure (canvasPresent isDark : Bool)
    (frames : List (List Nat)) (dataArray : List Nat) :
    drawVisualizer canvasPresent false isDark frames = [] ∧
    (drawFrame isDark dataArray).length = dataArray.length ∧
    (drawFrame isDark dataArray).map Bar.h = dataArray.map (fun v : Nat => (v : ℚ) / 2) := by
  refine ⟨?_, ?_, ?_⟩
  · cases canvasPresent
    · rfl
    · cases frames with
      | nil => rfl
      | cons d rest => rfl
  · simp [drawFrame]
  · simp only [drawFrame, List.map_map]
    exact map_range_getD (fun v : Nat => (v : ℚ) / 2) dataArray

/-- C9 (confirmed). When a credential is configured, the single
`generateContent` call transmits `audio/mp3` as the inline payload's media
type exactly when the supplied media type is the empty string, and transmits
the supplied type unchanged otherwise. -/
theorem c9_emptyMimeTypeFallback (apiKey : String) (hk : apiKey ≠ "") (audioBlob : Blob)
    (mimeType : String) (intervalMinutes : Nat) (response : Except String GenResponse) :
    sentMimeTypes (transcribeAudio apiKey audioBlob mimeType intervalMinutes response).2
      = [if mimeType = "" then "audio/mp3" else mimeType] := by
  simp only [transcribeAudio, if_neg hk, jsOrStr]
  cases response with
  | error e => simp [sentMimeTypes]
  | ok r =>
    cases hr : r.text with
    | none => simp [sentMimeTypes, hr]
    | some t =>
      by_cases ht : t = ""
      · simp [sentMimeTypes, hr, ht]
      · simp [sentMimeTypes, hr, ht]

/-- Witness for C9: empty media type is replaced by `audio/mp3` in the
transmitted payload. -/
theorem c9_emptyMimeTypeFallback_witness :
    sentMimeTypes (transcribeAudio "key" { data := [1], type := "audio/webm" } "" 2
        (Except.ok { text := some "hi" })).2 = ["audio/mp3"] := by
  have h := c9_emptyMimeTypeFallback "key" (by decide) { data := [1], type := "audio/webm" } ""
    2 (Except.ok { text := some "hi" })
  simpa using h

/-- C10 (confirmed). `handleAudioReady` overwrites the audio state with a
fresh object URL and never revokes the superseded one: after two consecutive
`handleAudioReady` calls the set of revoked URLs is unchanged while the first
URL has been replaced.  Revocation happens only through `handleClear`; the
other shell operations never revoke. -/
theorem c10_replaceLeaksUrl (s : AppState) (b1 b2 : Blob) (text message : String) :
    (handleAudioReady b1 s).audioState.url = some s.nextUrl ∧
    (handleAudioReady b2 (handleAudioReady b1 s)).audioState.url = some (s.nextUrl + 1) ∧
    (handleAudioReady b2 (handleAudioReady b1 s)).revokedUrls = s.revokedUrls ∧
    (handleClear (handleAudioReady b1 s)).revokedUrls = s.nextUrl :: s.revokedUrls ∧
    (handleTranscribe s).revokedUrls = s.revokedUrls ∧
    (onTranscribeOk text s).revokedUrls = s.revokedUrls ∧
    (onTranscribeErr message s).revokedUrls = s.revokedUrls := by
  refine ⟨rfl, rfl, rfl, rfl, ?_, rfl, rfl⟩
  · simp only [handleTranscribe]
    split
    · rfl
    · rfl

end Scrybe
